import Mathlib

/-!
Verification of the access-control behaviour exercised by the certification
test `TC_ACE_1_3.py`.  The test script drives an Access Control Evaluation
Engine on a remote device; the engine itself is not part of the repository's
sources, so its data model and algorithms (Subject Matcher, Target Matcher,
Access Decision Engine, ACL Store) are modelled from the specification, while
`acl_subject`, `write_acl` and the concrete ACL lists written by the test are
embedded directly from the source file.
-/

namespace TCACE13

/-- Privilege levels, ordered View < Operate < Manage < Administer.
Constructor names follow the source enum `AccessControlEntryPrivilegeEnum`. -/
inductive Privilege
  | kView
  | kOperate
  | kManage
  | kAdminister
deriving DecidableEq, Repr

/-- Numeric rank realising the total order View < Operate < Manage < Administer. -/
def Privilege.rank : Privilege → Nat
  | .kView => 1
  | .kOperate => 2
  | .kManage => 3
  | .kAdminister => 4

/-- Session authentication modes, following the source enum
`AccessControlEntryAuthModeEnum`. -/
inductive AuthMode
  | kCase
  | kPase
  | kGroup
deriving DecidableEq, Repr

/-- Target spec mirroring the source struct `AccessControlTargetStruct`:
`endpoint` and `cluster` are true optionals; `none` means "any". -/
structure AccessControlTargetStruct where
  endpoint : Option Nat
  cluster : Option Nat
deriving DecidableEq, Repr

/-- Modelled from the spec: the `Subject` tagged union of the data model —
either a specific node id or a category/version requirement.  The engine
decodes the wire encoding into this union at ACL-load time. -/
inductive Subject
  | node (nodeId : Nat)
  | category (category : Nat) (version : Nat)
deriving DecidableEq, Repr

/-- Modelled from the spec: the Identity Context — the requester's node id and
the set of category tags `(category, version)` it holds. -/
structure Identity where
  nodeId : Nat
  categoryTags : List (Nat × Nat)
deriving DecidableEq, Repr

/-- Modelled from the spec: a decoded ACL entry
`{privilege, authMode, subjects, targets}`. -/
structure AclEntry where
  privilege : Privilege
  authMode : AuthMode
  subjects : List Subject
  targets : List AccessControlTargetStruct
deriving DecidableEq, Repr

/-- Modelled from the spec: a single subject matches an identity —
`NodeSubject(n)` iff the identity's node id equals `n`, and
`CategorySubject(c, v)` iff the identity holds a tag `(c, v2)` with `v2 ≥ v`. -/
def subjectMatchesOne : Subject → Identity → Bool
  | .node n, ident => ident.nodeId == n
  | .category c v, ident => ident.categoryTags.any fun t => t.1 == c && decide (v ≤ t.2)

/-- Modelled from the spec: the Subject Matcher — an empty subject list is a
wildcard, otherwise at least one subject must match. -/
def subjectsMatch (subjects : List Subject) (ident : Identity) : Bool :=
  subjects.isEmpty || subjects.any fun s => subjectMatchesOne s ident

/-- Modelled from the spec: a single target spec matches a requested
`(endpoint, cluster)` iff each field is absent or equal to the request's. -/
def targetSpecMatches (t : AccessControlTargetStruct) (endpoint cluster : Nat) : Bool :=
  (match t.endpoint with
   | none => true
   | some e => e == endpoint)
  && (match t.cluster with
      | none => true
      | some c => c == cluster)

/-- Modelled from the spec: the Target Matcher — an empty target list is a
wildcard, otherwise at least one target spec must match. -/
def targetsMatch (targets : List AccessControlTargetStruct) (endpoint cluster : Nat) : Bool :=
  targets.isEmpty || targets.any fun t => targetSpecMatches t endpoint cluster

/-- The verdict of the Access Decision Engine. -/
inductive Decision
  | allow
  | deny
deriving DecidableEq, Repr

/-- Modelled from the spec: one entry grants the request iff its auth mode
equals the request's, its subjects match the identity, its targets match the
requested endpoint/cluster, and its privilege is at least the required one. -/
def entryGrants (e : AclEntry) (ident : Identity) (am : AuthMode)
    (endpoint cluster : Nat) (requiredPrivilege : Privilege) : Bool :=
  e.authMode == am
    && subjectsMatch e.subjects ident
    && targetsMatch e.targets endpoint cluster
    && decide (requiredPrivilege.rank ≤ e.privilege.rank)

/-- Modelled from the spec: the Access Decision Engine — Allow iff some entry
grants the request, else Deny (implicit deny). -/
def authorize (acl : List AclEntry) (ident : Identity) (am : AuthMode)
    (endpoint cluster : Nat) (requiredPrivilege : Privilege) : Decision :=
  if acl.any fun e => entryGrants e ident am endpoint cluster requiredPrivilege then
    .allow
  else
    .deny

/-- Modelled from the spec: the ACL Store — a mapping from fabric identifier
to that fabric's active (decoded) entry list. -/
def AclStore : Type := Nat → List AclEntry

/-- Modelled from the spec: the configured limits writeACL validates against
(entry count and per-entry subject/target counts). -/
structure StoreLimits where
  maxEntries : Nat
  maxSubjects : Nat
  maxTargets : Nat
deriving DecidableEq, Repr

/-- Modelled from the spec: per-entry validation of the subject and target
counts against the configured limits. -/
def validEntry (lim : StoreLimits) (e : AclEntry) : Bool :=
  decide (e.subjects.length ≤ lim.maxSubjects)
    && decide (e.targets.length ≤ lim.maxTargets)

/-- Modelled from the spec: list-level validation performed by writeACL
before installing a new list. -/
def validList (lim : StoreLimits) (l : List AclEntry) : Bool :=
  decide (l.length ≤ lim.maxEntries) && l.all (validEntry lim)

/-- Modelled from the spec: `writeACL(fabric, newList)` either fully installs
`newList` as the fabric's active list (returns success `true`) or fails
without effect (returns the unchanged store and `false`). -/
def writeACL (lim : StoreLimits) (st : AclStore) (fabric : Nat)
    (newList : List AclEntry) : AclStore × Bool :=
  if validList lim newList then
    (fun g => if g = fabric then newList else st g, true)
  else
    (st, false)

/-- Modelled from the spec: `currentACL(fabric)` — read-only snapshot of the
fabric's active list. -/
def currentACL (st : AclStore) (fabric : Nat) : List AclEntry := st fabric

/-- One writeACL request in a sequence of store operations. -/
structure WriteOp where
  fabric : Nat
  newList : List AclEntry

/-- Apply a sequence of writeACL requests to the store, in order. -/
def applyWrites (lim : StoreLimits) (st : AclStore) : List WriteOp → AclStore
  | [] => st
  | op :: ops => applyWrites lim (writeACL lim st op.fabric op.newList).1 ops

/-- The category-subject wire encoding from the source (`acl_subject`): OR of
the fixed 64-bit tag-type marker with the 32-bit category/version value. -/
def acl_subject (cat : Nat) : Nat := 0xFFFFFFFD00000000 ||| cat

/-- Pack a 16-bit category and a 16-bit version into the 32-bit value the
source builds as `cat_id | version` with the category in the upper 16 bits. -/
def packCatVersion (c v : Nat) : Nat := (c <<< 16) ||| v

/-- Wire encoding of `CategorySubject(c, v)` as built by the source:
`acl_subject` applied to the packed category/version value. -/
def encodeCatSubject (c v : Nat) : Nat := acl_subject (packCatVersion c v)

/-- Modelled from the spec: ACL-load-time decoding of a category subject.
Accepts exactly the well-formed encodings — upper 32 bits equal to the
marker `0xFFFFFFFD` — recovering the category from the upper 16 bits of the
low 32 bits and the version from the low 16 bits; rejects anything else. -/
def decodeCatSubject (n : Nat) : Option (Nat × Nat) :=
  if n / 2 ^ 32 = 0xFFFFFFFD then some ((n / 2 ^ 16) % 2 ^ 16, n % 2 ^ 16)
  else none

/-- Attribute-write status codes from `chip.interaction_model.Status` —
the ones this test distinguishes, plus a catch-all for the rest. -/
inductive Status
  | success
  | unsupportedAccess
  | unsupportedWrite
  | other (code : Nat)
deriving DecidableEq, Repr

/-- `write_acl` from the source: issues the attribute write and asserts that
the returned attribute status equals `Status.Success` ("ACL write failed"),
so the coroutine continues normally only on success; modelled as a function
of the status carried by the write result. -/
def write_acl (resultStatus : Status) : Except String Unit :=
  if resultStatus = Status.success then Except.ok ()
  else Except.error ("ACL write failed")

/-- ACL entry struct exactly as the test writes it on the wire: subjects are
raw 64-bit numbers, mirroring `AccessControlEntryStruct`. -/
structure RawAclEntry where
  privilege : Privilege
  authMode : AuthMode
  subjects : List Nat
  targets : List AccessControlTargetStruct
deriving DecidableEq, Repr

def cat1_id : Nat := 0x11110000
def cat2_id : Nat := 0x22220000

def cat1v1 : Nat := cat1_id ||| 0x0001
def cat1v2 : Nat := cat1_id ||| 0x0002
def cat1v3 : Nat := cat1_id ||| 0x0003
def cat2v1 : Nat := cat2_id ||| 0x0001
def cat2v2 : Nat := cat2_id ||| 0x0002
def cat2v3 : Nat := cat2_id ||| 0x0003

/-- The test's node ids: TH1..TH3 are the controller node id plus 1..3. -/
def TH1_nodeid (th0 : Nat) : Nat := th0 + 1
def TH2_nodeid (th0 : Nat) : Nat := th0 + 2
def TH3_nodeid (th0 : Nat) : Nat := th0 + 3

/-- The admin entry the test re-adds in front of every narrowing write:
Administer over CASE for TH0 on (endpoint 0, cluster 0x001f). -/
def TH0_admin_acl (th0 : Nat) : RawAclEntry :=
  { privilege := .kAdminister, authMode := .kCase, subjects := [th0],
    targets := [{ endpoint := some 0, cluster := some 0x001f }] }

/-- Step 2's wildcard-subject entry: View over CASE for everyone on endpoint 0. -/
def all_view : RawAclEntry :=
  { privilege := .kView, authMode := .kCase, subjects := [],
    targets := [{ endpoint := some 0, cluster := none }] }

/-- A View-over-CASE entry on endpoint 0 for the given raw subjects, the
shape of every narrowing entry the test writes (steps 6–54). -/
def view_entry (subs : List Nat) : RawAclEntry :=
  { privilege := .kView, authMode := .kCase, subjects := subs,
    targets := [{ endpoint := some 0, cluster := none }] }

/-- The fourteen ACL lists the test writes before the final step
(steps 2, 6, 10, 14, 18, 22, 26, 30, 34, 38, 42, 46, 50 and 54), in order. -/
def aclWritesBeforeFinal (th0 : Nat) : List (List RawAclEntry) :=
  [ [TH0_admin_acl th0, all_view],
    [TH0_admin_acl th0, view_entry [TH1_nodeid th0]],
    [TH0_admin_acl th0, view_entry [TH2_nodeid th0]],
    [TH0_admin_acl th0, view_entry [TH3_nodeid th0]],
    [TH0_admin_acl th0, view_entry [TH1_nodeid th0, TH2_nodeid th0]],
    [TH0_admin_acl th0, view_entry [TH1_nodeid th0, TH3_nodeid th0]],
    [TH0_admin_acl th0, view_entry [TH2_nodeid th0, TH3_nodeid th0]],
    [TH0_admin_acl th0, view_entry [TH1_nodeid th0, TH2_nodeid th0, TH3_nodeid th0]],
    [TH0_admin_acl th0, view_entry [acl_subject cat1v1]],
    [TH0_admin_acl th0, view_entry [acl_subject cat1v2]],
    [TH0_admin_acl th0, view_entry [acl_subject cat1v3]],
    [TH0_admin_acl th0, view_entry [acl_subject cat2v1]],
    [TH0_admin_acl th0, view_entry [acl_subject cat2v2]],
    [TH0_admin_acl th0, view_entry [acl_subject cat2v3]] ]

/-- The full-access entry of the final step 58: Administer over CASE for TH0
with empty (wildcard) targets. -/
def full_acl (th0 : Nat) : RawAclEntry :=
  { privilege := .kAdminister, authMode := .kCase, subjects := [th0],
    targets := [] }

/-- The final ACL list the test writes back (step 58). -/
def finalAclWrite (th0 : Nat) : List RawAclEntry := [full_acl th0]

/-! ### Helper lemmas about the decision engine -/

theorem entryGrants_eq_true_iff (e : AclEntry) (ident : Identity) (am : AuthMode)
    (endpoint cluster : Nat) (rp : Privilege) :
    entryGrants e ident am endpoint cluster rp = true ↔
      e.authMode = am ∧ subjectsMatch e.subjects ident = true ∧
        targetsMatch e.targets endpoint cluster = true ∧
        rp.rank ≤ e.privilege.rank := by
  simp [entryGrants, Bool.and_eq_true, and_assoc]

theorem authorize_eq_allow_iff (acl : List AclEntry) (ident : Identity) (am : AuthMode)
    (endpoint cluster : Nat) (rp : Privilege) :
    authorize acl ident am endpoint cluster rp = .allow ↔
      ∃ e ∈ acl, entryGrants e ident am endpoint cluster rp = true := by
  unfold authorize
  split <;> rename_i h <;> simp only [List.any_eq_true] at h <;> simp_all

theorem authorize_eq_deny_iff (acl : List AclEntry) (ident : Identity) (am : AuthMode)
    (endpoint cluster : Nat) (rp : Privilege) :
    authorize acl ident am endpoint cluster rp = .deny ↔
      ¬ ∃ e ∈ acl, entryGrants e ident am endpoint cluster rp = true := by
  unfold authorize
  split <;> rename_i h <;> simp only [List.any_eq_true] at h <;> simp_all

theorem perm_any_eq {α : Type} {l₁ l₂ : List α} (h : l₁.Perm l₂) (f : α → Bool) :
    l₁.any f = l₂.any f := by
  rw [Bool.eq_iff_iff]
  simp only [List.any_eq_true]
  exact ⟨fun ⟨x, hx, hfx⟩ => ⟨x, h.mem_iff.mp hx, hfx⟩,
    fun ⟨x, hx, hfx⟩ => ⟨x, h.mem_iff.mpr hx, hfx⟩⟩

/-! ### Claim theorems -/

/-- C1: `authorize` returns Allow iff the list contains at least one entry
whose auth mode equals the request's, whose subjects match the identity,
whose targets match the requested (endpoint, cluster), and whose privilege
is ≥ the required privilege under View < Operate < Manage < Administer;
otherwise it returns Deny. -/
theorem authorize_allow_iff_matching_entry (acl : List AclEntry) (ident : Identity)
    (am : AuthMode) (endpoint cluster : Nat) (rp : Privilege) :
    (authorize acl ident am endpoint cluster rp = .allow ↔
      ∃ e ∈ acl, e.authMode = am ∧ subjectsMatch e.subjects ident = true ∧
        targetsMatch e.targets endpoint cluster = true ∧
        rp.rank ≤ e.privilege.rank)
    ∧ (authorize acl ident am endpoint cluster rp = .deny ↔
      ¬ ∃ e ∈ acl, e.authMode = am ∧ subjectsMatch e.subjects ident = true ∧
        targetsMatch e.targets endpoint cluster = true ∧
        rp.rank ≤ e.privilege.rank) := by
  constructor
  · rw [authorize_eq_allow_iff]
    exact exists_congr fun e => and_congr_right fun _ => entryGrants_eq_true_iff ..
  · rw [authorize_eq_deny_iff]
    exact not_congr <| exists_congr fun e => and_congr_right fun _ =>
      entryGrants_eq_true_iff ..

/-- C2: subject matching is monotone in the held version within a fixed
category — an identity holding `(c, v2)` with `v1 ≤ v2` is matched by a
`CategorySubject(c, v1)` entry, and an identity holding only `(c, w1)` with
`w1 < w2` is never matched by a `CategorySubject(c, w2)` entry. -/
theorem categorySubject_version_monotone (c v1 v2 w1 w2 : Nat)
    (ident ident' : Identity)
    (hle : v1 ≤ v2) (hmem : (c, v2) ∈ ident.categoryTags)
    (hlt : w1 < w2) (honly : ident'.categoryTags = [(c, w1)]) :
    subjectMatchesOne (Subject.category c v1) ident = true
    ∧ subjectMatchesOne (Subject.category c w2) ident' = false := by
  constructor
  · simp only [subjectMatchesOne, List.any_eq_true]
    exact ⟨(c, v2), hmem, by simp [hle]⟩
  · simp [subjectMatchesOne, honly, Nat.not_le.mpr hlt]

/-- Witness for C2 at category 7, held versions 2 and 1. -/
theorem categorySubject_version_monotone_witness :
    subjectMatchesOne (Subject.category 7 1) ⟨5, [(7, 2)]⟩ = true
    ∧ subjectMatchesOne (Subject.category 7 2) ⟨6, [(7, 1)]⟩ = false :=
  categorySubject_version_monotone 7 1 2 1 2 ⟨5, [(7, 2)]⟩ ⟨6, [(7, 1)]⟩
    (by decide) (by decide) (by decide) rfl

/-- C4: permuting the entries of an ACL list never changes the result of
`authorize`, for every identity, auth mode, target and required privilege. -/
theorem authorize_perm_invariant (l₁ l₂ : List AclEntry) (h : l₁.Perm l₂)
    (ident : Identity) (am : AuthMode) (endpoint cluster : Nat) (rp : Privilege) :
    authorize l₁ ident am endpoint cluster rp
      = authorize l₂ ident am endpoint cluster rp := by
  unfold authorize
  rw [perm_any_eq h]

/-- Witness for C4 on a two-entry list and its swap. -/
theorem authorize_perm_invariant_witness :
    authorize [⟨.kView, .kCase, [.node 1], []⟩, ⟨.kManage, .kGroup, [], []⟩]
        ⟨1, []⟩ .kCase 0 6 .kView
      = authorize [⟨.kManage, .kGroup, [], []⟩, ⟨.kView, .kCase, [.node 1], []⟩]
        ⟨1, []⟩ .kCase 0 6 .kView :=
  authorize_perm_invariant _ _ (by decide) ⟨1, []⟩ .kCase 0 6 .kView

/-- C5: an entry with empty subjects is matched by every identity (wildcard
subject), and an ACL containing the entry
`{privilege: View, authMode: am, subjects: [], targets: []}` makes
`authorize` return Allow for every identity at every target with required
privilege View under auth mode `am`. -/
theorem wildcard_subject_allows_all (acl : List AclEntry) (ident : Identity)
    (am : AuthMode) (endpoint cluster : Nat)
    (hmem : (⟨.kView, am, [], []⟩ : AclEntry) ∈ acl) :
    subjectsMatch [] ident = true
    ∧ authorize acl ident am endpoint cluster .kView = .allow := by
  refine ⟨rfl, ?_⟩
  rw [authorize_eq_allow_iff]
  exact ⟨⟨.kView, am, [], []⟩, hmem, by simp [entryGrants, subjectsMatch, targetsMatch]⟩

/-- Witness for C5 on a singleton wildcard ACL. -/
theorem wildcard_subject_allows_all_witness :
    subjectsMatch [] ⟨42, [(3, 9)]⟩ = true
    ∧ authorize [⟨.kView, .kCase, [], []⟩] ⟨42, [(3, 9)]⟩ .kCase 1 55 .kView
        = .allow :=
  wildcard_subject_allows_all [⟨.kView, .kCase, [], []⟩] ⟨42, [(3, 9)]⟩ .kCase 1 55
    (by decide)

/-- C6: a target spec with endpoint explicitly 0 matches a request for
endpoint 0 and not for endpoint 1, while a spec with endpoint absent matches
both — endpoint 0 is never treated as a wildcard marker. -/
theorem endpoint_zero_is_explicit (cluster : Nat) :
    targetSpecMatches ⟨some 0, none⟩ 0 cluster = true
    ∧ targetSpecMatches ⟨some 0, none⟩ 1 cluster = false
    ∧ targetSpecMatches ⟨none, none⟩ 0 cluster = true
    ∧ targetSpecMatches ⟨none, none⟩ 1 cluster = true := by
  exact ⟨rfl, rfl, rfl, rfl⟩

/-- A sequence of writeACL requests none of which is a successful write to
fabric `f` leaves fabric `f`'s active list unchanged. -/
theorem applyWrites_no_success_fixes (lim : StoreLimits) (ops : List WriteOp) (f : Nat)
    (h : ∀ op ∈ ops, op.fabric = f → validList lim op.newList = false) :
    ∀ st : AclStore, applyWrites lim st ops f = st f := by
  induction ops with
  | nil => intro st; rfl
  | cons op ops ih =>
    intro st
    have hrest : ∀ o ∈ ops, o.fabric = f → validList lim o.newList = false :=
      fun o ho => h o (List.mem_cons_of_mem _ ho)
    show applyWrites lim (writeACL lim st op.fabric op.newList).1 ops f = st f
    rw [ih hrest]
    by_cases hv : validList lim op.newList = true
    · by_cases hf : op.fabric = f
      · exact absurd (h op (List.mem_cons_self op ops) hf) (by simp [hv])
      · have hne : f ≠ op.fabric := fun hc => hf hc.symm
        simp [writeACL, hv, hne]
    · simp [writeACL, hv]

/-- C3: after a successful `writeACL(fabric, L)`, every subsequent
`authorize` against that fabric is evaluated against exactly `L` until the
next successful `writeACL` on that fabric, and a failed `writeACL` leaves
the store unchanged. -/
theorem writeACL_atomic_replace (lim : StoreLimits) (st : AclStore) (f : Nat)
    (L : List AclEntry) (ops : List WriteOp)
    (hW : (writeACL lim st f L).2 = true)
    (hOps : ∀ op ∈ ops, op.fabric = f → validList lim op.newList = false) :
    currentACL (applyWrites lim (writeACL lim st f L).1 ops) f = L
    ∧ (∀ ident am endpoint cluster rp,
        authorize (currentACL (applyWrites lim (writeACL lim st f L).1 ops) f)
            ident am endpoint cluster rp
          = authorize L ident am endpoint cluster rp)
    ∧ (∀ st' f' L', (writeACL lim st' f' L').2 = false →
        (writeACL lim st' f' L').1 = st') := by
  have hvalid : validList lim L = true := by
    by_contra hv
    rw [writeACL, if_neg hv] at hW
    exact Bool.false_ne_true hW
  have hbase : currentACL (applyWrites lim (writeACL lim st f L).1 ops) f = L := by
    rw [currentACL, applyWrites_no_success_fixes lim ops f hOps]
    rw [writeACL, if_pos hvalid]
    simp
  refine ⟨hbase, fun ident am endpoint cluster rp => by rw [hbase], ?_⟩
  intro st' f' L' hfail
  rw [writeACL] at hfail ⊢
  by_cases hv : validList lim L' = true
  · rw [if_pos hv] at hfail
    exact absurd hfail (by simp)
  · rw [if_neg hv]

/-- Witness for C3 with a one-entry list, empty subsequent operations. -/
theorem writeACL_atomic_replace_witness :
    currentACL
        (applyWrites ⟨4, 4, 4⟩
          (writeACL ⟨4, 4, 4⟩ (fun _ => []) 0 [⟨.kView, .kCase, [], []⟩]).1 []) 0
      = [⟨.kView, .kCase, [], []⟩]
    ∧ (∀ ident am endpoint cluster rp,
        authorize
            (currentACL
              (applyWrites ⟨4, 4, 4⟩
                (writeACL ⟨4, 4, 4⟩ (fun _ => []) 0 [⟨.kView, .kCase, [], []⟩]).1 []) 0)
            ident am endpoint cluster rp
          = authorize [⟨.kView, .kCase, [], []⟩] ident am endpoint cluster rp)
    ∧ (∀ st' f' L', (writeACL ⟨4, 4, 4⟩ st' f' L').2 = false →
        (writeACL ⟨4, 4, 4⟩ st' f' L').1 = st') :=
  writeACL_atomic_replace ⟨4, 4, 4⟩ (fun _ => []) 0 [⟨.kView, .kCase, [], []⟩] []
    rfl (by simp)

/-! ### Helper lemmas about the subject encoding -/

theorem packCatVersion_eq (c v : Nat) (hv : v < 2 ^ 16) :
    packCatVersion c v = c * 2 ^ 16 + v := by
  unfold packCatVersion
  rw [Nat.shiftLeft_eq, Nat.mul_comm c (2 ^ 16)]
  exact (Nat.mul_add_lt_is_or hv c).symm

theorem marker_lor_eq (m : Nat) (hm : m < 2 ^ 32) :
    0xFFFFFFFD00000000 ||| m = 0xFFFFFFFD * 2 ^ 32 + m := by
  have h : (0xFFFFFFFD00000000 : Nat) = 2 ^ 32 * 0xFFFFFFFD := by norm_num
  rw [h, ← Nat.mul_add_lt_is_or hm 0xFFFFFFFD, Nat.mul_comm]

theorem acl_subject_eq_add (cat : Nat) (h : cat < 2 ^ 32) :
    acl_subject cat = 0xFFFFFFFD * 2 ^ 32 + cat := by
  unfold acl_subject
  exact marker_lor_eq cat h

/-- C7: for 16-bit category `c` and version `v`, the wire encoding of
`CategorySubject(c, v)` is the OR of the fixed marker `0xFFFFFFFD00000000`
with the 32-bit value holding `c` in the upper and `v` in the lower 16 bits;
load-time decoding recovers exactly `(c, v)` from the well-formed encoding
and rejects every value without the marker in its upper 32 bits. -/
theorem encodeCatSubject_roundtrip (c v : Nat) (hc : c < 2 ^ 16) (hv : v < 2 ^ 16) :
    encodeCatSubject c v = 0xFFFFFFFD00000000 ||| (c * 2 ^ 16 + v)
    ∧ decodeCatSubject (encodeCatSubject c v) = some (c, v)
    ∧ (∀ n, n / 2 ^ 32 ≠ 0xFFFFFFFD → decodeCatSubject n = none) := by
  have h16 : (2 : Nat) ^ 16 = 65536 := by norm_num
  have h32 : (2 : Nat) ^ 32 = 4294967296 := by norm_num
  have hpack : packCatVersion c v = c * 2 ^ 16 + v := packCatVersion_eq c v hv
  have hlt : c * 2 ^ 16 + v < 2 ^ 32 := by rw [h16] at *; rw [h32]; omega
  have henc : encodeCatSubject c v = 0xFFFFFFFD * 2 ^ 32 + (c * 2 ^ 16 + v) := by
    unfold encodeCatSubject acl_subject
    rw [hpack, ← marker_lor_eq _ hlt]
  refine ⟨?_, ?_, ?_⟩
  · unfold encodeCatSubject acl_subject
    rw [hpack]
  · rw [henc]
    unfold decodeCatSubject
    rw [if_pos (by rw [h16, h32] at *; omega)]
    have e1 : (0xFFFFFFFD * 2 ^ 32 + (c * 2 ^ 16 + v)) / 2 ^ 16 % 2 ^ 16 = c := by
      rw [h16, h32] at *
      omega
    have e2 : (0xFFFFFFFD * 2 ^ 32 + (c * 2 ^ 16 + v)) % 2 ^ 16 = v := by
      rw [h16, h32] at *
      omega
    rw [e1, e2]
  · intro n hn
    unfold decodeCatSubject
    rw [if_neg hn]

/-- Witness for C7 at category 0x1111, version 3 (the source's cat1v3). -/
theorem encodeCatSubject_roundtrip_witness :
    encodeCatSubject 0x1111 3 = 0xFFFFFFFD00000000 ||| (0x1111 * 2 ^ 16 + 3)
    ∧ decodeCatSubject (encodeCatSubject 0x1111 3) = some (0x1111, 3)
    ∧ (∀ n, n / 2 ^ 32 ≠ 0xFFFFFFFD → decodeCatSubject n = none) :=
  encodeCatSubject_roundtrip 0x1111 3 (by norm_num) (by norm_num)

/-- C9: for every 32-bit `cat`, `acl_subject cat` has upper 32 bits
`0xFFFFFFFD` and lower 32 bits `cat` — so `acl_subject` is injective on
32-bit inputs and `cat` is recoverable by taking the low 32 bits — while
beyond 32 bits the OR can collide with and corrupt the marker, and the
round trip fails. -/
theorem acl_subject_split_bits (cat : Nat) (hcat : cat < 2 ^ 32) :
    acl_subject cat / 2 ^ 32 = 0xFFFFFFFD
    ∧ acl_subject cat % 2 ^ 32 = cat
    ∧ (∀ cat2, cat2 < 2 ^ 32 → acl_subject cat2 = acl_subject cat → cat2 = cat)
    ∧ acl_subject (2 ^ 32) = acl_subject 0
    ∧ acl_subject (2 ^ 33) / 2 ^ 32 ≠ 0xFFFFFFFD
    ∧ acl_subject (2 ^ 32) % 2 ^ 32 ≠ 2 ^ 32 := by
  have h32 : (2 : Nat) ^ 32 = 4294967296 := by norm_num
  have hself := acl_subject_eq_add cat hcat
  refine ⟨?_, ?_, ?_, by decide, by decide, by decide⟩
  · rw [hself, h32] at *
    omega
  · rw [hself, h32] at *
    omega
  · intro cat2 h2 heq
    rw [hself, acl_subject_eq_add cat2 h2] at heq
    omega

/-- Witness for C9 at the source's cat1v1 value 0x11110001. -/
theorem acl_subject_split_bits_witness :
    acl_subject 0x11110001 / 2 ^ 32 = 0xFFFFFFFD
    ∧ acl_subject 0x11110001 % 2 ^ 32 = 0x11110001
    ∧ (∀ cat2, cat2 < 2 ^ 32 → acl_subject cat2 = acl_subject 0x11110001 →
        cat2 = 0x11110001)
    ∧ acl_subject (2 ^ 32) = acl_subject 0
    ∧ acl_subject (2 ^ 33) / 2 ^ 32 ≠ 0xFFFFFFFD
    ∧ acl_subject (2 ^ 32) % 2 ^ 32 ≠ 2 ^ 32 :=
  acl_subject_split_bits 0x11110001 (by norm_num)

/-- C8: every ACL list the test writes before the final step contains the
controlling identity's admin entry — privilege Administer, auth mode CASE,
subjects exactly [TH0's node id] — and the final write installs a single
full-access Administer entry for TH0 with empty (wildcard) targets. -/
theorem admin_entry_retained (th0 : Nat) :
    (aclWritesBeforeFinal th0).Forall (fun l => TH0_admin_acl th0 ∈ l)
    ∧ (TH0_admin_acl th0).privilege = Privilege.kAdminister
    ∧ (TH0_admin_acl th0).authMode = AuthMode.kCase
    ∧ (TH0_admin_acl th0).subjects = [th0]
    ∧ finalAclWrite th0 = [full_acl th0]
    ∧ (full_acl th0).privilege = Privilege.kAdminister
    ∧ (full_acl th0).authMode = AuthMode.kCase
    ∧ (full_acl th0).subjects = [th0]
    ∧ (full_acl th0).targets = [] := by
  refine ⟨?_, rfl, rfl, rfl, rfl, rfl, rfl, rfl, rfl⟩
  simp [aclWritesBeforeFinal, List.Forall]

/-- C10: `write_acl` proceeds normally iff the attribute-write status is
Success, and on every other status it fails with the assertion message
"ACL write failed" instead of continuing. -/
theorem write_acl_asserts_success (s : Status) :
    (write_acl s = Except.ok () ↔ s = Status.success)
    ∧ (write_acl s = Except.error ("ACL write failed") ↔ s ≠ Status.success) := by
  unfold write_acl
  by_cases h : s = Status.success <;> simp [h]

end TCACE13
